import Mathlib

/-!
Verification of the storj-monitor metric-extraction and satellite-vetting
reconciliation logic, as implemented in `src/collector/satellite_extractor.py`,
`src/collector/service.py` and `src/storj_monitor/utils.py`.

Upstream JSON payloads are modelled by the inductive type `JVal` (the values a
deserialized JSON document can hold).  The pydantic models guarantee that the
satellite / audit / daily-interval *entries* are dictionaries, so they appear
here as `JObj`; everything nested inside an entry is an arbitrary `JVal`.
Python exceptions that the extractors can raise or swallow (`ValueError`,
`TypeError`, `AttributeError`) are modelled by `Except PyErr`.  Python `float`
arithmetic is modelled exactly over `ℚ`; the quantities involved (byte counts,
score fractions) are far below the range where IEEE rounding could affect any
property proved here.
-/

namespace StorjMonitor

/-- Python exceptions relevant to the extraction code paths. -/
inductive PyErr where
  | valueError
  | typeError
  | attributeError
deriving DecidableEq, Repr

/-- A deserialized JSON value (the payload type of the upstream documents). -/
inductive JVal where
  | vnull : JVal
  | vbool : Bool → JVal
  | vint : Int → JVal
  | vfloat : ℚ → JVal
  | vstr : String → JVal
  | vlist : List JVal → JVal
  | vobj : List (String × JVal) → JVal

/-- A JSON object / Python dict with string keys (keys unique by construction). -/
abbrev JObj := List (String × JVal)

/-- Python `d.get(k, default)` on a dict. -/
def objGet (o : JObj) (k : String) (d : JVal) : JVal :=
  match o.find? (fun p => p.1 == k) with
  | some p => p.2
  | none => d

/-- Python `v.get(k, default)` where `v` is an arbitrary value: raises
`AttributeError` unless `v` is a dict. -/
def vGet (v : JVal) (k : String) (d : JVal) : Except PyErr JVal :=
  match v with
  | .vobj o => .ok (objGet o k d)
  | _ => .error .attributeError

/-- Python truthiness (`not v` is `isFalsy v`). -/
def isFalsy : JVal → Bool
  | .vnull => true
  | .vbool b => !b
  | .vint n => n == 0
  | .vfloat q => q == 0
  | .vstr s => s == ""
  | .vlist xs => xs.isEmpty
  | .vobj o => o.isEmpty

/-- Python `v is None`. -/
def isNoneVal : JVal → Bool
  | .vnull => true
  | _ => false

/-- Whether a JSON value is hashable in Python (lists and dicts are not;
using an unhashable value as a dict key or in a membership test raises
`TypeError`). -/
def hashable : JVal → Bool
  | .vlist _ => false
  | .vobj _ => false
  | _ => true

/-- Numeric view of a value, for Python cross-type equality
(`1 == 1.0 == True`). -/
def numVal? : JVal → Option ℚ
  | .vbool b => some (if b then 1 else 0)
  | .vint n => some (n : ℚ)
  | .vfloat q => some q
  | _ => none

/-- Python `==` restricted to the hashable values that can appear as dict keys
in the audit map. -/
def pyKeyEq (a b : JVal) : Bool :=
  match numVal? a, numVal? b with
  | some x, some y => x == y
  | _, _ =>
    match a, b with
    | .vnull, .vnull => true
    | .vstr s, .vstr t => s == t
    | _, _ => false

/-- Value of a digit string (`cs` all digits). -/
def digitsVal (cs : List Char) : Nat :=
  cs.foldl (fun a c => a * 10 + (c.toNat - 48)) 0

/-- Value of the fractional digit string after a decimal point. -/
def fracVal (cs : List Char) : ℚ :=
  cs.foldr (fun c acc => (((c.toNat - 48 : Nat) : ℚ) + acc) / 10) 0

/-- Strip leading and trailing whitespace (the `str.strip()` Python `int`
and `float` apply to their argument). -/
def trimChars (l : List Char) : List Char :=
  ((l.dropWhile Char.isWhitespace).reverse.dropWhile Char.isWhitespace).reverse

/-- Replace every non-overlapping occurrence of `pat` (non-empty in all uses)
left to right, as Python `str.replace`; the fuel argument, instantiated with
the string length, dominates the one-or-more characters consumed per step. -/
def replaceFuel (pat rep : List Char) : Nat → List Char → List Char
  | 0, l => l
  | _ + 1, [] => []
  | fuel + 1, c :: cs =>
    if pat.isPrefixOf (c :: cs) then
      rep ++ replaceFuel pat rep fuel (List.drop pat.length (c :: cs))
    else c :: replaceFuel pat rep fuel cs

/-- Python `s.replace(pat, rep)`. -/
def pyReplace (s pat rep : String) : String :=
  ⟨replaceFuel pat.toList rep.toList s.toList.length s.toList⟩

/-- Model of Python `int(s)` on a string: surrounding whitespace, an optional
sign and a run of digits.  (Underscore digit separators are not modelled.) -/
def parsePyInt (s : String) : Option Int :=
  match trimChars s.toList with
  | [] => none
  | c :: cs0 =>
    let p : Int × List Char :=
      if c == '-' then (-1, cs0) else if c == '+' then (1, cs0) else (1, c :: cs0)
    if !p.2.isEmpty && p.2.all Char.isDigit then
      some (p.1 * (digitsVal p.2 : Int))
    else none

/-- Model of Python `float(s)` on a string: optional sign, digits with an
optional decimal point (`"7"`, `"1.5"`, `".5"`, `"5."`).  Exponent, `inf` and
`nan` forms are not modelled; no data path of the repository relies on them. -/
def parsePyFloat (s : String) : Option ℚ :=
  match trimChars s.toList with
  | [] => none
  | c :: cs0 =>
    let p : ℚ × List Char :=
      if c == '-' then (-1, cs0) else if c == '+' then (1, cs0) else (1, c :: cs0)
    let sp := p.2.span (fun ch => !(ch == '.'))
    match sp.2 with
    | [] =>
      if !sp.1.isEmpty && sp.1.all Char.isDigit then some (p.1 * (digitsVal sp.1 : ℚ))
      else none
    | _ :: frac =>
      if sp.1.all Char.isDigit && frac.all Char.isDigit
          && !(sp.1.isEmpty && frac.isEmpty) then
        some (p.1 * ((digitsVal sp.1 : ℚ) + fracVal frac))
      else none

/-- Truncation toward zero, the rounding of Python `int(float)`
(`Int.div` is T-division, unlike the flooring `/` instance). -/
def ratTrunc (q : ℚ) : Int := Int.tdiv q.num (q.den : Int)

/-- Model of Python `int(v)`: `none` when `int()` raises
`ValueError`/`TypeError`. -/
def pyInt? : JVal → Option Int
  | .vbool b => some (if b then 1 else 0)
  | .vint n => some n
  | .vfloat q => some (ratTrunc q)
  | .vstr s => parsePyInt s
  | _ => none

/-- `utils.safe_int`: coerce with fallback default, never raising. -/
def safe_int (v : JVal) (d : Int) : Int := (pyInt? v).getD d

/-- Model of Python `float(v)`: `none` when `float()` raises
`ValueError`/`TypeError`. -/
def pyFloat? : JVal → Option ℚ
  | .vbool b => some (if b then 1 else 0)
  | .vint n => some (n : ℚ)
  | .vfloat q => some q
  | .vstr s => parsePyFloat s
  | _ => none

/-- `utils.safe_float`: coerce with fallback default, never raising. -/
def safe_float (v : JVal) (d : ℚ) : ℚ := (pyFloat? v).getD d

/-- A Python `datetime.date`. -/
structure PyDate where
  year : Nat
  month : Nat
  day : Nat
deriving DecidableEq, Repr

/-- A Python `datetime.datetime`, with seconds within the day and an optional
UTC offset in minutes (`none` models a naive datetime).  Sub-second precision
is not modelled. -/
structure PyDateTime where
  date : PyDate
  secs : Nat
  tz : Option Int
deriving DecidableEq, Repr

def isLeapYear (y : Nat) : Bool := (y % 4 == 0 && y % 100 != 0) || (y % 400 == 0)

def daysInMonth (y m : Nat) : Nat :=
  if m == 2 then (if isLeapYear y then 29 else 28)
  else if m == 4 || m == 6 || m == 9 || m == 11 then 30
  else 31

def validDate (y m d : Nat) : Bool :=
  decide (1 ≤ y) && decide (y ≤ 9999) && decide (1 ≤ m) && decide (m ≤ 12)
    && decide (1 ≤ d) && decide (d ≤ daysInMonth y m)

/-- Days since 1970-01-01 of a proleptic-Gregorian date (the standard
days-from-civil computation; all intermediate divisions act on nonnegative
arguments for the years accepted by `validDate`). -/
def daysFromCivil (dt : PyDate) : Int :=
  let y : Int := (dt.year : Int) - (if dt.month ≤ 2 then 1 else 0)
  let era : Int := y / 400
  let yoe : Int := y - era * 400
  let mp : Int := (dt.month : Int) + (if 2 < dt.month then -3 else 9)
  let doy : Int := (153 * mp + 2) / 5 + (dt.day : Int) - 1
  let doe : Int := yoe * 365 + yoe / 4 - yoe / 100 + doy
  era * 146097 + doe - 719468

/-- Seconds since the Unix epoch (naive datetimes read as zero offset; they are
never subtracted against aware ones, `pySubSecs` raises first). -/
def epochSecs (t : PyDateTime) : Int :=
  daysFromCivil t.date * 86400 + (t.secs : Int) - (t.tz.getD 0) * 60

/-- Parse a trailing UTC offset `±HH:MM` (minutes, signed). -/
def parseOffset : List Char → Option Int
  | [s, h1, h2, ':', m1, m2] =>
    if (s == '+' || s == '-') && h1.isDigit && h2.isDigit && m1.isDigit && m2.isDigit then
      let h := digitsVal [h1, h2]
      let m := digitsVal [m1, m2]
      if decide (h ≤ 23) && decide (m ≤ 59) then
        some ((if s == '-' then -1 else 1) * ((h : Int) * 60 + (m : Int)))
      else none
    else none
  | _ => none

/-- Parse `HH:MM` or `HH:MM:SS`, returning seconds within the day and the
unconsumed remainder (a possible offset). -/
def parseHMS : List Char → Option (Nat × List Char)
  | h1 :: h2 :: ':' :: m1 :: m2 :: rest =>
    if h1.isDigit && h2.isDigit && m1.isDigit && m2.isDigit then
      let h := digitsVal [h1, h2]
      let m := digitsVal [m1, m2]
      if decide (h ≤ 23) && decide (m ≤ 59) then
        match rest with
        | ':' :: s1 :: s2 :: rest2 =>
          if s1.isDigit && s2.isDigit then
            let s := digitsVal [s1, s2]
            if decide (s ≤ 59) then some (h * 3600 + m * 60 + s, rest2) else none
          else none
        | _ => some (h * 3600 + m * 60, rest)
      else none
    else none
  | _ => none

/-- Model of `datetime.fromisoformat`: `YYYY-MM-DD`, optionally followed by
`T` or a space and `HH:MM[:SS]`, optionally followed by a `±HH:MM` offset.
Fractional seconds are not modelled. -/
def fromisoformat (s : String) : Option PyDateTime :=
  match s.toList with
  | y1 :: y2 :: y3 :: y4 :: '-' :: m1 :: m2 :: '-' :: d1 :: d2 :: rest =>
    if [y1, y2, y3, y4, m1, m2, d1, d2].all Char.isDigit then
      let y := digitsVal [y1, y2, y3, y4]
      let mo := digitsVal [m1, m2]
      let d := digitsVal [d1, d2]
      if validDate y mo d then
        match rest with
        | [] => some ⟨⟨y, mo, d⟩, 0, none⟩
        | c :: rest2 =>
          if c == 'T' || c == ' ' then
            match parseHMS rest2 with
            | none => none
            | some p =>
              match p.2 with
              | [] => some ⟨⟨y, mo, d⟩, p.1, none⟩
              | _ =>
                match parseOffset p.2 with
                | some off => some ⟨⟨y, mo, d⟩, p.1, some off⟩
                | none => none
          else none
      else none
    else none
  | _ => none

/-- `utils.timestamp_to_datetime`: replace `Z` by `+00:00`, try
`fromisoformat`, and on `ValueError` retry with `+00:00` stripped, attaching
UTC.  A non-string argument raises `AttributeError` at the `.replace` call. -/
def timestamp_to_datetime (v : JVal) : Except PyErr PyDateTime :=
  match v with
  | .vstr s =>
    match fromisoformat (pyReplace s "Z" "+00:00") with
    | some dt => .ok dt
    | none =>
      match fromisoformat (pyReplace (pyReplace s "Z" "+00:00") "+00:00" "") with
      | some dt => .ok { dt with tz := some 0 }
      | none => .error .valueError
  | _ => .error .attributeError

/-- Python datetime subtraction in whole seconds; mixing naive and aware
datetimes raises `TypeError`. -/
def pySubSecs (a b : PyDateTime) : Except PyErr Int :=
  if a.tz.isSome == b.tz.isSome then .ok (epochSecs a - epochSecs b)
  else .error .typeError

/-- `utils.calculate_uptime_seconds`, with the current instant threaded as the
`now` parameter.  The except clause in the source catches `ValueError` and
`TypeError`; for a string argument those are the only exceptions the body can
raise (a string never triggers `AttributeError`), so the catch-all arm below
is exhaustive over the reachable errors. -/
def calculate_uptime_seconds (now : PyDateTime) (started_at : String) : Int :=
  match timestamp_to_datetime (.vstr started_at) with
  | .error _ => 0
  | .ok t =>
    match pySubSecs now t with
    | .ok n => n
    | .error _ => 0

/-- The `KNOWN_SATELLITES` registry of `collector/satellite_extractor.py`:
satellite id, short name, region. -/
def KNOWN_SATELLITES : List (String × String × String) :=
  [("12EayRS2V1kEsWESU9QMRseFhdxYxKicsiFmxrsLZHeLUtdps3S", "us1", "North America"),
   ("12L9ZFwhzVpuEKMUNUqkaTLGzwY9G24tbiigLiXpmZWKwmcNDDs", "eu1", "Europe"),
   ("121RTSDpyNZVcEU84Ticf2L1ntiuUimbWgfATz21tuvgk3vzoA6", "ap1", "Asia Pacific"),
   ("1wFTAgs9DP5RSnCqKV1eLf6N9wtk4EAtmN5DpSxcs8EjT69tGE", "saltlake", "North America"),
   ("12EayRS2V1kEsWESU9QMRseFhdxYxKicsiFHpkmn1LT3StBp1R", "us1_legacy", "North America")]

/-- Registry lookup by satellite-id string: name and region. -/
def lookupKnown (sid : String) : Option (String × String) :=
  (KNOWN_SATELLITES.find? (fun e => e.1 == sid)).map (fun e => e.2)

/-- The Python membership test `satellite_id in KNOWN_SATELLITES` followed by
the two indexings: hashing an unhashable value (a JSON array or object) raises
`TypeError`; any other non-registered value is simply not a member. -/
def registryLookup : JVal → Except PyErr (Option (String × String × String))
  | .vstr s =>
    match lookupKnown s with
    | some nr => .ok (some (s, nr.1, nr.2))
    | none => .ok none
  | .vlist _ => .error .typeError
  | .vobj _ => .error .typeError
  | _ => .ok none

/-- One per-satellite vetting-status record, as assembled by
`extract_satellite_status`. -/
structure SatelliteStatus where
  node_name : String
  satellite_id : String
  satellite_name : String
  satellite_region : String
  timestamp : PyDateTime
  is_vetted : Bool
  vetting_progress : ℚ
  vetted_at : Option PyDateTime
  audit_score : ℚ
  suspension_score : ℚ
  online_score : ℚ
  joined_at : Option PyDateTime
  current_month_egress : Int
  current_month_ingress : Int
deriving DecidableEq, Repr

/-- A `try: timestamp_to_datetime(v) except (ValueError, TypeError): pass`
block leaving the target at `None` on the caught failures. -/
def tryParseTs (v : JVal) : Except PyErr (Option PyDateTime) :=
  match timestamp_to_datetime v with
  | .ok t => .ok (some t)
  | .error .valueError => .ok none
  | .error .typeError => .ok none
  | .error e => .error e

/-- Python `min(x, y)` on floats, exact over ℚ. -/
def pymin (x y : ℚ) : ℚ := if x ≤ y then x else y

/-- Python `max(x, y)` on floats, exact over ℚ. -/
def pymax (x y : ℚ) : ℚ := if x ≤ y then y else x

/-- `SatelliteDataExtractor._calculate_vetting_progress`. -/
def calculate_vetting_progress (sd : JObj) (is_vetted : Bool) : ℚ :=
  if is_vetted then 1
  else
    let vetting_progress := safe_float (objGet sd "vettingProgress" (.vfloat 0)) 0
    if 0 < vetting_progress then pymin vetting_progress 1
    else
      let current_ingress := safe_int (objGet sd "currentMonthIngress" (.vint 0)) 0
      let current_egress := safe_int (objGet sd "currentMonthEgress" (.vint 0)) 0
      let total_bandwidth := current_ingress + current_egress
      if 0 < total_bandwidth then
        pymin ((total_bandwidth : ℚ) / ((1073741824 : ℚ) * 100)) 1
      else 0

/-- Modelled from the spec's words (the fallback priority for a satellite
without `vettedAt`): (a) an explicit upstream `vettingProgress` field if
present and coercing to a value greater than 0, clamped to the interval
from 0 to 1; (b) else `min(totalCurrentMonthBandwidth / (1GiB * 100), 1.0)`
when that total is positive; (c) else 0.  Stated for comparison with the
code's `calculate_vetting_progress`. -/
def vettingFallbackSpec (sd : JObj) : ℚ :=
  let vp := safe_float (objGet sd "vettingProgress" (.vfloat 0)) 0
  if 0 < vp then pymax 0 (pymin vp 1)
  else
    let total := safe_int (objGet sd "currentMonthIngress" (.vint 0)) 0
               + safe_int (objGet sd "currentMonthEgress" (.vint 0)) 0
    if 0 < total then pymin ((total : ℚ) / (1073741824 * 100)) 1
    else 0

/-- The body of the per-satellite loop of `extract_satellite_status`:
`.ok none` when the entry is skipped (unknown id), `.error` when the iteration
raises. -/
def processSatelliteEntry (node_name : String) (now : PyDateTime) (sd : JObj) :
    Except PyErr (Option SatelliteStatus) :=
  match registryLookup (objGet sd "id" (.vstr "")) with
  | .error e => .error e
  | .ok none => .ok none
  | .ok (some k) =>
    match (if !(isNoneVal (objGet sd "vettedAt" .vnull)) then
        tryParseTs (objGet sd "vettedAt" .vnull) else .ok none) with
    | .error e => .error e
    | .ok vetted_at =>
      match (if isFalsy (objGet sd "joinedAt" .vnull) then .ok none
          else tryParseTs (objGet sd "joinedAt" .vnull)) with
      | .error e => .error e
      | .ok joined_at =>
        .ok (some
          { node_name := node_name
            satellite_id := k.1
            satellite_name := k.2.1
            satellite_region := k.2.2
            timestamp := now
            is_vetted := !(isNoneVal (objGet sd "vettedAt" .vnull))
            vetting_progress :=
              if !(isNoneVal (objGet sd "vettedAt" .vnull)) then 1
              else calculate_vetting_progress sd (!(isNoneVal (objGet sd "vettedAt" .vnull)))
            vetted_at := vetted_at
            audit_score := 1
            suspension_score := 1
            online_score := 1
            joined_at := joined_at
            current_month_egress := safe_int (objGet sd "currentMonthEgress" (.vint 0)) 0
            current_month_ingress := safe_int (objGet sd "currentMonthIngress" (.vint 0)) 0 })

/-- Sequential collection of per-entry extraction steps, the shape shared by
all the extraction loops: an entry mapped to `none` is skipped, an error
aborts the whole extraction (the Python loop raises). -/
def collectSteps (step : JObj → Except PyErr (Option α)) : List JObj → Except PyErr (List α)
  | [] => .ok []
  | e :: rest =>
    match step e with
    | .error er => .error er
    | .ok r? =>
      match collectSteps step rest with
      | .error er => .error er
      | .ok l => .ok (match r? with | some r => r :: l | none => l)

/-- Python dict insertion `audit_map[k] = a` on an association list whose keys
are pairwise non-equal: overwrite the entry with an equal key, else append. -/
def mapInsert (m : List (JVal × JObj)) (k : JVal) (a : JObj) : List (JVal × JObj) :=
  match m with
  | [] => [(k, a)]
  | p :: rest => if pyKeyEq p.1 k then (p.1, a) :: rest else p :: mapInsert rest k a

/-- Python dict lookup on the audit map. -/
def mapLookup (m : List (JVal × JObj)) (k : JVal) : Option JObj :=
  (m.find? (fun p => pyKeyEq p.1 k)).map (fun p => p.2)

/-- The audit-map building loop of `_update_satellite_scores`: entries with a
falsy `satelliteID` are skipped; hashing an unhashable id raises `TypeError`;
a later duplicate id overwrites the earlier entry. -/
def buildAuditMapAux (acc : List (JVal × JObj)) : List JObj → Except PyErr (List (JVal × JObj))
  | [] => .ok acc
  | a :: rest =>
    if isFalsy (objGet a "satelliteID" .vnull) then buildAuditMapAux acc rest
    else if hashable (objGet a "satelliteID" .vnull) then
      buildAuditMapAux (mapInsert acc (objGet a "satelliteID" .vnull) a) rest
    else .error .typeError

def buildAuditMap (audits : List JObj) : Except PyErr (List (JVal × JObj)) :=
  buildAuditMapAux [] audits

/-- The score-overwriting pass of `_update_satellite_scores` on one status
record. -/
def updateScores (m : List (JVal × JObj)) (st : SatelliteStatus) : SatelliteStatus :=
  match mapLookup m (.vstr st.satellite_id) with
  | none => st
  | some a =>
    { st with
      audit_score := safe_float (objGet a "auditScore" (.vfloat 1)) 0
      suspension_score := safe_float (objGet a "suspensionScore" (.vfloat 1)) 0
      online_score := safe_float (objGet a "onlineScore" (.vfloat 1)) 0 }

/-- `storj_monitor.models.StorjNodeInfo`, restricted to the field the embedded
operations consume; the remaining validated scalar fields of the pydantic
model never flow into the extraction logic verified here. -/
structure StorjNodeInfo where
  satellites : Option (List JObj)

/-- `storj_monitor.models.StorjSatelliteInfo`, restricted likewise.  The
pydantic types guarantee every list entry is a dict, hence `JObj`. -/
structure StorjSatelliteInfo where
  storage_daily : Option (List JObj)
  bandwidth_daily : Option (List JObj)
  audits : List JObj

/-- `SatelliteDataExtractor.extract_satellite_status` (the capture timestamp
`utc_now()` is threaded as `now`).  The source guards the loop with
`if node_info.satellites:`; running the loop on the empty list is the same as
skipping it, so `Option.getD []` is a faithful rendering. -/
def extract_satellite_status (node_name : String) (now : PyDateTime)
    (node_info : StorjNodeInfo) (satellite_info : StorjSatelliteInfo) :
    Except PyErr (List SatelliteStatus) :=
  match collectSteps (processSatelliteEntry node_name now) (node_info.satellites.getD []) with
  | .error e => .error e
  | .ok base =>
    if satellite_info.audits.isEmpty then .ok base
    else
      match buildAuditMap satellite_info.audits with
      | .error e => .error e
      | .ok m => .ok (base.map (updateScores m))

/-- One row produced by `extract_daily_satellite_metrics`. -/
structure DailySatelliteMetric where
  node_name : String
  satellite_id : String
  date : PyDate
  storage_used_bytes : Int
  storage_at_rest_bytes : Int
  ingress_usage_bytes : Int
  ingress_repair_bytes : Int
  egress_usage_bytes : Int
  egress_repair_bytes : Int
  egress_audit_bytes : Int
  vetting_bandwidth_requirement : Int
  vetting_bandwidth_completed : Int
deriving DecidableEq, Repr

/-- The five nested bandwidth field reads
`ingress.get('usage'|'repair'), egress.get('usage'|'repair'|'audit')`.
Each `.get` in the source raises `AttributeError` exactly when its receiver is
not a dict, so one dict-shape test per receiver yields the same result
(values: ingress usage, ingress repair, egress usage, egress repair,
egress audit). -/
def bwFields (e : JObj) : Except PyErr (Int × Int × Int × Int × Int) :=
  match objGet e "ingress" (.vobj []), objGet e "egress" (.vobj []) with
  | .vobj ing, .vobj eg =>
    .ok (safe_int (objGet ing "usage" (.vint 0)) 0,
         safe_int (objGet ing "repair" (.vint 0)) 0,
         safe_int (objGet eg "usage" (.vint 0)) 0,
         safe_int (objGet eg "repair" (.vint 0)) 0,
         safe_int (objGet eg "audit" (.vint 0)) 0)
  | _, _ => .error .attributeError

/-- Loop body of the bandwidth pass of `extract_daily_satellite_metrics`:
skips entries with a falsy interval start, swallows `ValueError`/`TypeError`
from timestamp parsing, skips falsy or unregistered satellite ids. -/
def bwDailyStep (node_name : String) (e : JObj) : Except PyErr (Option DailySatelliteMetric) :=
  if isFalsy (objGet e "intervalStart" (.vstr "")) then .ok none
  else
    match timestamp_to_datetime (objGet e "intervalStart" (.vstr "")) with
    | .error .valueError => .ok none
    | .error .typeError => .ok none
    | .error er => .error er
    | .ok dt =>
      if isFalsy (objGet e "satelliteId" .vnull) then .ok none
      else
        match registryLookup (objGet e "satelliteId" .vnull) with
        | .error er => .error er
        | .ok none => .ok none
        | .ok (some k) =>
          match bwFields e with
          | .error er => .error er
          | .ok f =>
            .ok (some
              { node_name := node_name
                satellite_id := k.1
                date := dt.date
                storage_used_bytes := 0
                storage_at_rest_bytes := 0
                ingress_usage_bytes := f.1
                ingress_repair_bytes := f.2.1
                egress_usage_bytes := f.2.2.1
                egress_repair_bytes := f.2.2.2.1
                egress_audit_bytes := f.2.2.2.2
                vetting_bandwidth_requirement := 1099511627776
                vetting_bandwidth_completed := f.1 + f.2.2.1 })

/-- Loop body of the storage pass of `extract_daily_satellite_metrics`, up to
the merge: yields satellite id, date and at-rest byte count, or skips. -/
def stParse (e : JObj) : Except PyErr (Option (String × PyDate × Int)) :=
  if isFalsy (objGet e "intervalStart" (.vstr "")) then .ok none
  else
    match timestamp_to_datetime (objGet e "intervalStart" (.vstr "")) with
    | .error .valueError => .ok none
    | .error .typeError => .ok none
    | .error er => .error er
    | .ok dt =>
      if isFalsy (objGet e "satelliteId" .vnull) then .ok none
      else
        match registryLookup (objGet e "satelliteId" .vnull) with
        | .error er => .error er
        | .ok none => .ok none
        | .ok (some k) =>
          .ok (some (k.1, dt.date, safe_int (objGet e "atRestTotalBytes" (.vint 0)) 0))

/-- Key match used by the merge scan of the storage pass. -/
def matchesKey (sid : String) (d : PyDate) (m : DailySatelliteMetric) : Bool :=
  m.satellite_id == sid && m.date == d

/-- The two storage-field assignments of the merge. -/
def setStorage (b : Int) (m : DailySatelliteMetric) : DailySatelliteMetric :=
  { m with storage_used_bytes := b, storage_at_rest_bytes := b }

/-- Update the first list element satisfying `p` (the merge updates the first
matching accumulated record, as the linear scan of the source does). -/
def updFirst (p : α → Bool) (f : α → α) : List α → List α
  | [] => []
  | x :: xs => if p x then f x :: xs else x :: updFirst p f xs

/-- The storage-only record appended when no bandwidth record matches. -/
def newStorageMetric (node_name sid : String) (d : PyDate) (b : Int) : DailySatelliteMetric :=
  { node_name := node_name
    satellite_id := sid
    date := d
    storage_used_bytes := b
    storage_at_rest_bytes := b
    ingress_usage_bytes := 0
    ingress_repair_bytes := 0
    egress_usage_bytes := 0
    egress_repair_bytes := 0
    egress_audit_bytes := 0
    vetting_bandwidth_requirement := 1099511627776
    vetting_bandwidth_completed := 0 }

/-- The merge of one storage entry into the accumulated daily metrics. -/
def mergeStorage (node_name : String) (acc : List DailySatelliteMetric)
    (sid : String) (d : PyDate) (b : Int) : List DailySatelliteMetric :=
  if acc.any (matchesKey sid d) then updFirst (matchesKey sid d) (setStorage b) acc
  else acc ++ [newStorageMetric node_name sid d b]

/-- The storage pass of `extract_daily_satellite_metrics`. -/
def stPass (node_name : String) (acc : List DailySatelliteMetric) :
    List JObj → Except PyErr (List DailySatelliteMetric)
  | [] => .ok acc
  | e :: rest =>
    match stParse e with
    | .error er => .error er
    | .ok none => stPass node_name acc rest
    | .ok (some t) => stPass node_name (mergeStorage node_name acc t.1 t.2.1 t.2.2) rest

/-- `SatelliteDataExtractor.extract_daily_satellite_metrics`. -/
def extract_daily_satellite_metrics (node_name : String) (si : StorjSatelliteInfo) :
    Except PyErr (List DailySatelliteMetric) :=
  match collectSteps (bwDailyStep node_name) (si.bandwidth_daily.getD []) with
  | .error e => .error e
  | .ok base => stPass node_name base (si.storage_daily.getD [])

/-- Whether an entry produces (without raising) a record satisfying `p` under
the given extraction step; used to state which input entries hit a given
output key. -/
def stepHits (step : JObj → Except PyErr (Option α)) (p : α → Bool) (e : JObj) : Bool :=
  match step e with
  | .ok (some r) => p r
  | _ => false

/-- Whether a storage-daily entry parses to the key `(sid, d)`. -/
def stHits (sid : String) (d : PyDate) (e : JObj) : Bool :=
  match stParse e with
  | .ok (some t) => t.1 == sid && t.2.1 == d
  | _ => false

/-- `storj_monitor.models.DailyBandwidthMetrics`. -/
structure DailyBandwidthMetrics where
  node_name : String
  date : PyDate
  ingress_usage_bytes : Int
  ingress_repair_bytes : Int
  egress_usage_bytes : Int
  egress_repair_bytes : Int
  egress_audit_bytes : Int
  delete_bytes : Int
deriving DecidableEq, Repr

/-- Loop body of `StorjCollector.extract_daily_bandwidth_metrics`; note the
source catches only `ValueError` around the timestamp parse here. -/
def dailyBwStep (node_name : String) (e : JObj) : Except PyErr (Option DailyBandwidthMetrics) :=
  if isFalsy (objGet e "intervalStart" (.vstr "")) then .ok none
  else
    match timestamp_to_datetime (objGet e "intervalStart" (.vstr "")) with
    | .error .valueError => .ok none
    | .error er => .error er
    | .ok dt =>
      match bwFields e with
      | .error er => .error er
      | .ok f =>
        .ok (some
          { node_name := node_name
            date := dt.date
            ingress_usage_bytes := f.1
            ingress_repair_bytes := f.2.1
            egress_usage_bytes := f.2.2.1
            egress_repair_bytes := f.2.2.2.1
            egress_audit_bytes := f.2.2.2.2
            delete_bytes := safe_int (objGet e "delete" (.vint 0)) 0 })

/-- `StorjCollector.extract_daily_bandwidth_metrics`. -/
def extract_daily_bandwidth_metrics (node_name : String) (si : StorjSatelliteInfo) :
    Except PyErr (List DailyBandwidthMetrics) :=
  collectSteps (dailyBwStep node_name) (si.bandwidth_daily.getD [])

/-- `storj_monitor.models.DailyStorageMetrics`. -/
structure DailyStorageMetrics where
  node_name : String
  date : PyDate
  at_rest_total_bytes : Int
  average_usage_bytes : Int
deriving DecidableEq, Repr

/-- Python numeric division `v / k`: raises `TypeError` for a non-numeric
left operand. -/
def pyDivNum (v : JVal) (k : ℚ) : Except PyErr JVal :=
  match numVal? v with
  | some q => .ok (.vfloat (q / k))
  | none => .error .typeError

/-- Loop body of `StorjCollector.extract_daily_storage_metrics`; only
`ValueError` is caught around the timestamp parse, and the
`atRestTotal / 24` average is computed outside any try block. -/
def dailyStorageStep (node_name : String) (e : JObj) : Except PyErr (Option DailyStorageMetrics) :=
  if isFalsy (objGet e "intervalStart" (.vstr "")) then .ok none
  else
    match timestamp_to_datetime (objGet e "intervalStart" (.vstr "")) with
    | .error .valueError => .ok none
    | .error er => .error er
    | .ok dt =>
      match (if isFalsy (objGet e "atRestTotal" (.vint 0)) then .ok (.vint 0)
          else pyDivNum (objGet e "atRestTotal" (.vint 0)) 24) with
      | .error er => .error er
      | .ok avg =>
        .ok (some
          { node_name := node_name
            date := dt.date
            at_rest_total_bytes := safe_int (objGet e "atRestTotalBytes" (.vint 0)) 0
            average_usage_bytes := safe_int avg 0 })

/-- `StorjCollector.extract_daily_storage_metrics`. -/
def extract_daily_storage_metrics (node_name : String) (si : StorjSatelliteInfo) :
    Except PyErr (List DailyStorageMetrics) :=
  collectSteps (dailyStorageStep node_name) (si.storage_daily.getD [])

/-- Modelled from the spec: the relational schema (db/schema.sql and
db/schema_v2.sql, referenced by scripts/init_db.py but not part of the source
tree) keys the daily-aggregate table `metrics_daily_bandwidth` by
`(node, date)`; the spec states daily aggregate rows are keyed by
`(node, [satellite], date)` and fully replaced on conflict. -/
def dailyBwConflict (a b : DailyBandwidthMetrics) : Bool :=
  a.node_name == b.node_name && a.date == b.date

/-- SQLite `INSERT OR REPLACE` against the `(node, date)` unique key: delete
every conflicting row, then insert the new row. -/
def insertOrReplaceDailyBw (tbl : List DailyBandwidthMetrics) (r : DailyBandwidthMetrics) :
    List DailyBandwidthMetrics :=
  (tbl.filter (fun x => !dailyBwConflict x r)) ++ [r]

/-- The daily-bandwidth write loop of `StorjCollector.store_metrics` over one
cycle's records (cycles compose by function composition, so the same fold also
describes consecutive cycles). -/
def storeDailyBandwidth (tbl : List DailyBandwidthMetrics) (ms : List DailyBandwidthMetrics) :
    List DailyBandwidthMetrics :=
  ms.foldl insertOrReplaceDailyBw tbl

/-! Concrete fixtures used by the witness and counterexample theorems. -/

/-- The us1 satellite id from the registry. -/
def us1Id : String := "12EayRS2V1kEsWESU9QMRseFhdxYxKicsiFmxrsLZHeLUtdps3S"

/-- A fixed collection instant: 2025-09-14 23:00:00 UTC. -/
def wNow : PyDateTime := ⟨⟨2025, 9, 14⟩, 82800, some 0⟩

/-- A satellite-info document with no daily entries and no audits. -/
def wEmptySat : StorjSatelliteInfo := ⟨some [], some [], []⟩

/-- The status record extracted from a vetted us1 entry
(`vettedAt = "2024-01-01T00:00:00Z"`) at `wNow`. -/
def wVettedRec : SatelliteStatus :=
  ⟨"n", us1Id, "us1", "North America", wNow, true, 1,
    some ⟨⟨2024, 1, 1⟩, 0, some 0⟩, 1, 1, 1, none, 0, 0⟩

/-- A bandwidth-daily entry for us1 on 2025-09-14. -/
def wBwEntry : JObj :=
  [("intervalStart", .vstr "2025-09-14T00:00:00Z"), ("satelliteId", .vstr us1Id),
   ("ingress", .vobj [("usage", .vint 11), ("repair", .vint 12)]),
   ("egress", .vobj [("usage", .vint 13), ("repair", .vint 14), ("audit", .vint 15)])]

/-- A storage-daily entry for us1 on 2025-09-14. -/
def wStEntry : JObj :=
  [("intervalStart", .vstr "2025-09-14T00:00:00Z"), ("satelliteId", .vstr us1Id),
   ("atRestTotalBytes", .vint 777)]

/-- The bandwidth-only record extracted from `wBwEntry`. -/
def wBwRec : DailySatelliteMetric :=
  ⟨"n", us1Id, ⟨2025, 9, 14⟩, 0, 0, 11, 12, 13, 14, 15, 1099511627776, 24⟩

/-- The merged record for `wBwEntry` followed by `wStEntry`. -/
def wMergedRec : DailySatelliteMetric :=
  ⟨"n", us1Id, ⟨2025, 9, 14⟩, 777, 777, 11, 12, 13, 14, 15, 1099511627776, 24⟩

/-- The status record extracted from an unvetted us1 entry whose
`currentMonthEgress` is the non-numeric string `"abc"`, scored by an audit
entry whose `auditScore` is the non-numeric string `"xyz"`. -/
def wBadScoreRec : SatelliteStatus :=
  ⟨"n", us1Id, "us1", "North America", wNow, false, 0, none, 0, 1, 1, none, 0, 0⟩

/-! General lemmas about the embedded operations. -/

lemma registryLookup_ok_known {v : JVal} {k : String × String × String}
    (h : registryLookup v = .ok (some k)) :
    v = .vstr k.1 ∧ lookupKnown k.1 = some (k.2.1, k.2.2) := by
  cases v <;> simp [registryLookup] at h
  case vstr s =>
    cases hl : lookupKnown s with
    | none => simp [hl] at h
    | some nr =>
      simp [hl] at h
      subst h
      exact ⟨rfl, by simp [hl]⟩

lemma lookupKnown_of_registry {v : JVal} {k : String × String × String}
    (h : registryLookup v = .ok (some k)) : (lookupKnown k.1).isSome = true := by
  rcases registryLookup_ok_known h with ⟨-, h2⟩
  simp [h2]

lemma collectSteps_mem {α : Type} {step : JObj → Except PyErr (Option α)} :
    ∀ {es : List JObj} {out : List α}, collectSteps step es = .ok out →
      ∀ {r : α}, r ∈ out → ∃ e ∈ es, step e = .ok (some r) := by
  intro es
  induction es with
  | nil =>
    intro out h r hr
    simp [collectSteps] at h
    subst h
    simp at hr
  | cons e rest ih =>
    intro out h r hr
    unfold collectSteps at h
    cases hs : step e with
    | error er => simp [hs] at h
    | ok r? =>
      rw [hs] at h
      cases hrest : collectSteps step rest with
      | error er => simp [hrest] at h
      | ok l2 =>
        rw [hrest] at h
        simp at h
        cases r? with
        | none =>
          subst h
          rcases ih hrest hr with ⟨e2, he2, hstep⟩
          exact ⟨e2, List.mem_cons_of_mem _ he2, hstep⟩
        | some r0 =>
          subst h
          rcases List.mem_cons.mp hr with h1 | h2
          · exact ⟨e, List.mem_cons_self _ _, by rw [hs, h1]⟩
          · rcases ih hrest h2 with ⟨e2, he2, hstep⟩
            exact ⟨e2, List.mem_cons_of_mem _ he2, hstep⟩

lemma collectSteps_skip {α : Type} {step : JObj → Except PyErr (Option α)} {e : JObj}
    (he : step e = .ok none) :
    ∀ (pre post : List JObj),
      collectSteps step (pre ++ e :: post) = collectSteps step (pre ++ post) := by
  intro pre post
  induction pre with
  | nil =>
    simp only [List.nil_append]
    cases hrest : collectSteps step post with
    | error er => simp [collectSteps, he, hrest]
    | ok l => simp [collectSteps, he, hrest]
  | cons x xs ih =>
    simp only [List.cons_append]
    unfold collectSteps
    rw [ih]

lemma collect_filter_nil {α : Type} {step : JObj → Except PyErr (Option α)} {p : α → Bool} :
    ∀ {es : List JObj} {out : List α}, collectSteps step es = .ok out →
      es.filter (stepHits step p) = [] → out.filter p = [] := by
  intro es
  induction es with
  | nil =>
    intro out h hf
    simp [collectSteps] at h
    subst h
    simp
  | cons e rest ih =>
    intro out h hf
    unfold collectSteps at h
    cases hs : step e with
    | error er => simp [hs] at h
    | ok r? =>
      rw [hs] at h
      cases hrest : collectSteps step rest with
      | error er => simp [hrest] at h
      | ok l2 =>
        rw [hrest] at h
        simp at h
        rw [List.filter_cons] at hf
        split at hf
        · simp at hf
        · next hcond =>
          cases r? with
          | none =>
            subst h
            exact ih hrest hf
          | some r0 =>
            subst h
            have hp0 : p r0 = false := by
              simp [stepHits, hs] at hcond
              exact hcond
            rw [List.filter_cons, hp0]
            simp only [Bool.false_eq_true, if_false]
            exact ih hrest hf

lemma collect_filter {α : Type} {step : JObj → Except PyErr (Option α)} {p : α → Bool}
    {b : JObj} {rb : α} :
    ∀ {es : List JObj} {out : List α}, collectSteps step es = .ok out →
      es.filter (stepHits step p) = [b] → step b = .ok (some rb) →
      out.filter p = [rb] := by
  intro es
  induction es with
  | nil =>
    intro out h hf hb
    simp at hf
  | cons e rest ih =>
    intro out h hf hb
    unfold collectSteps at h
    cases hs : step e with
    | error er => simp [hs] at h
    | ok r? =>
      rw [hs] at h
      cases hrest : collectSteps step rest with
      | error er => simp [hrest] at h
      | ok l2 =>
        rw [hrest] at h
        simp at h
        rw [List.filter_cons] at hf
        split at hf
        · next hcond =>
          injection hf with hf1 htail
          subst hf1
          rw [hb] at hs
          have hr0 : r? = some rb := by
            cases hs
            rfl
          subst hr0
          subst h
          have hprb : p rb = true := by
            simpa [stepHits, hb] using hcond
          rw [List.filter_cons, hprb]
          simp only [if_true]
          rw [collect_filter_nil hrest htail]
        · next hcond =>
          cases r? with
          | none =>
            subst h
            exact ih hrest hf hb
          | some r0 =>
            subst h
            have hp0 : p r0 = false := by
              simp [stepHits, hs] at hcond
              exact hcond
            rw [List.filter_cons, hp0]
            simp only [Bool.false_eq_true, if_false]
            exact ih hrest hf hb

lemma updFirst_mem {α : Type} {p : α → Bool} {f : α → α} :
    ∀ {l : List α} {x : α}, x ∈ updFirst p f l → x ∈ l ∨ ∃ y ∈ l, x = f y := by
  intro l
  induction l with
  | nil => intro x hx; simp [updFirst] at hx
  | cons a as ih =>
    intro x hx
    unfold updFirst at hx
    split at hx
    · rcases List.mem_cons.mp hx with h | h
      · exact Or.inr ⟨a, List.mem_cons_self _ _, h⟩
      · exact Or.inl (List.mem_cons_of_mem _ h)
    · rcases List.mem_cons.mp hx with h | h
      · exact Or.inl (by simp [h])
      · rcases ih h with h1 | ⟨y, hy, hxy⟩
        · exact Or.inl (List.mem_cons_of_mem _ h1)
        · exact Or.inr ⟨y, List.mem_cons_of_mem _ hy, hxy⟩

lemma mergeStorage_mem {n sid : String} {d : PyDate} {b : Int}
    {acc : List DailySatelliteMetric} {x : DailySatelliteMetric}
    (hx : x ∈ mergeStorage n acc sid d b) :
    x ∈ acc ∨ (∃ y ∈ acc, x = setStorage b y) ∨ x = newStorageMetric n sid d b := by
  unfold mergeStorage at hx
  split at hx
  · rcases updFirst_mem hx with h | ⟨y, hy, hxy⟩
    · exact Or.inl h
    · exact Or.inr (Or.inl ⟨y, hy, hxy⟩)
  · rcases List.mem_append.mp hx with h | h
    · exact Or.inl h
    · simp at h
      exact Or.inr (Or.inr h)

lemma stPass_forall {n : String} (P : DailySatelliteMetric → Prop)
    (hset : ∀ b m, P m → P (setStorage b m))
    (hnew : ∀ e sid d b, stParse e = .ok (some (sid, d, b)) → P (newStorageMetric n sid d b)) :
    ∀ {es : List JObj} {acc out : List DailySatelliteMetric},
      (∀ m ∈ acc, P m) → stPass n acc es = .ok out → ∀ m ∈ out, P m := by
  intro es
  induction es with
  | nil =>
    intro acc out hacc h
    simp [stPass] at h
    subst h
    exact hacc
  | cons e rest ih =>
    intro acc out hacc h
    unfold stPass at h
    cases hp : stParse e with
    | error er => simp [hp] at h
    | ok t? =>
      rw [hp] at h
      cases t? with
      | none => exact ih hacc h
      | some t =>
        refine ih ?_ h
        intro m hm
        rcases mergeStorage_mem hm with h1 | ⟨y, hy, rfl⟩ | rfl
        · exact hacc m h1
        · exact hset _ _ (hacc y hy)
        · exact hnew e t.1 t.2.1 t.2.2 hp

lemma matchesKey_setStorage (sid : String) (d : PyDate) (b : Int) (m : DailySatelliteMetric) :
    matchesKey sid d (setStorage b m) = matchesKey sid d m := rfl

lemma matchesKey_true_iff {sid : String} {d : PyDate} {m : DailySatelliteMetric} :
    matchesKey sid d m = true ↔ m.satellite_id = sid ∧ m.date = d := by
  simp [matchesKey]

lemma filter_updFirst_setStorage {sid t1 : String} {d td : PyDate} {b : Int}
    (hne : ¬(t1 = sid ∧ td = d)) :
    ∀ l : List DailySatelliteMetric,
      (updFirst (matchesKey t1 td) (setStorage b) l).filter (matchesKey sid d)
        = l.filter (matchesKey sid d) := by
  intro l
  induction l with
  | nil => rfl
  | cons x xs ih =>
    unfold updFirst
    split
    · next hx =>
      have hcond : matchesKey sid d x = false := by
        cases hc : matchesKey sid d x
        · rfl
        · rcases matchesKey_true_iff.mp hx with ⟨e1, e2⟩
          rcases matchesKey_true_iff.mp hc with ⟨e3, e4⟩
          exact absurd ⟨e1.symm.trans e3, e2.symm.trans e4⟩ hne
      rw [List.filter_cons, List.filter_cons, matchesKey_setStorage, hcond]
      simp only [Bool.false_eq_true, if_false]
    · next hx =>
      rw [List.filter_cons, List.filter_cons, ih]

lemma filter_updFirst_self {p : DailySatelliteMetric → Bool} {f : DailySatelliteMetric → DailySatelliteMetric}
    {r : DailySatelliteMetric} (hpf : ∀ x, p x = true → p (f x) = true) :
    ∀ {l : List DailySatelliteMetric}, l.filter p = [r] →
      (updFirst p f l).filter p = [f r] := by
  intro l
  induction l with
  | nil => intro h; simp at h
  | cons x xs ih =>
    intro h
    rw [List.filter_cons] at h
    unfold updFirst
    by_cases hx : p x = true
    · rw [if_pos hx] at h
      injection h with h1 htail
      subst h1
      rw [if_pos hx, List.filter_cons, hpf x hx]
      simp only [if_true]
      rw [htail]
    · rw [if_neg hx] at h
      rw [if_neg hx, List.filter_cons]
      have hx' : p x = false := by
        cases hc : p x
        · rfl
        · exact absurd hc hx
      rw [hx']
      simp only [Bool.false_eq_true, if_false]
      exact ih h

lemma mergeStorage_filter_ne {n t1 sid : String} {td d : PyDate} {b : Int}
    {acc : List DailySatelliteMetric} (hne : ¬(t1 = sid ∧ td = d)) :
    (mergeStorage n acc t1 td b).filter (matchesKey sid d) = acc.filter (matchesKey sid d) := by
  unfold mergeStorage
  split
  · exact filter_updFirst_setStorage hne acc
  · rw [List.filter_append]
    have hnew : matchesKey sid d (newStorageMetric n t1 td b) = false := by
      cases hc : matchesKey sid d (newStorageMetric n t1 td b)
      · rfl
      · rcases matchesKey_true_iff.mp hc with ⟨e1, e2⟩
        exact absurd ⟨e1, e2⟩ hne
    simp [hnew]

lemma stPass_filter_preserve {n sid : String} {d : PyDate} :
    ∀ {es : List JObj} {acc out : List DailySatelliteMetric},
      es.filter (stHits sid d) = [] → stPass n acc es = .ok out →
      out.filter (matchesKey sid d) = acc.filter (matchesKey sid d) := by
  intro es
  induction es with
  | nil =>
    intro acc out hf h
    simp [stPass] at h
    subst h
    rfl
  | cons e rest ih =>
    intro acc out hf h
    unfold stPass at h
    rw [List.filter_cons] at hf
    cases hp : stParse e with
    | error er => simp [hp] at h
    | ok t? =>
      rw [hp] at h
      split at hf
      · simp at hf
      · next hcond =>
        cases t? with
        | none => exact ih hf h
        | some t =>
          have hne : ¬(t.1 = sid ∧ t.2.1 = d) := by
            intro hc
            have : stHits sid d e = true := by
              simp [stHits, hp, hc.1, hc.2]
            exact hcond this
          rw [ih hf h, mergeStorage_filter_ne hne]

lemma stPass_filter_update {n sid : String} {d : PyDate} {sb : Int} {s : JObj}
    {r : DailySatelliteMetric} (hs : stParse s = .ok (some (sid, d, sb))) :
    ∀ {es : List JObj} {acc out : List DailySatelliteMetric},
      es.filter (stHits sid d) = [s] → acc.filter (matchesKey sid d) = [r] →
      stPass n acc es = .ok out →
      out.filter (matchesKey sid d) = [setStorage sb r] := by
  intro es
  induction es with
  | nil =>
    intro acc out hf hacc h
    simp at hf
  | cons e rest ih =>
    intro acc out hf hacc h
    unfold stPass at h
    rw [List.filter_cons] at hf
    cases hp : stParse e with
    | error er => simp [hp] at h
    | ok t? =>
      rw [hp] at h
      split at hf
      · next hcond =>
        injection hf with hf1 htail
        subst hf1
        rw [hs] at hp
        have ht : t? = some (sid, d, sb) := by
          cases hp
          rfl
        subst ht
        have hrmem : r ∈ acc.filter (matchesKey sid d) := by
          rw [hacc]
          exact List.mem_cons_self _ _
        rcases List.mem_filter.mp hrmem with ⟨hracc, hrkey⟩
        have hany : acc.any (matchesKey sid d) = true :=
          List.any_eq_true.mpr ⟨r, hracc, hrkey⟩
        have hmerge : (mergeStorage n acc sid d sb).filter (matchesKey sid d)
            = [setStorage sb r] := by
          unfold mergeStorage
          rw [if_pos hany]
          exact filter_updFirst_self (fun x hx => by rwa [matchesKey_setStorage]) hacc
        rw [stPass_filter_preserve htail h, hmerge]
      · next hcond =>
        cases t? with
        | none => exact ih hf hacc h
        | some t =>
          have hne : ¬(t.1 = sid ∧ t.2.1 = d) := by
            intro hc
            have : stHits sid d e = true := by
              simp [stHits, hp, hc.1, hc.2]
            exact hcond this
          refine ih hf ?_ h
          rw [mergeStorage_filter_ne hne, hacc]

lemma stPass_skip {n : String} {e : JObj} (he : stParse e = .ok none) :
    ∀ (pre post : List JObj) (acc : List DailySatelliteMetric),
      stPass n acc (pre ++ e :: post) = stPass n acc (pre ++ post) := by
  intro pre
  induction pre with
  | nil =>
    intro post acc
    simp only [List.nil_append]
    conv_lhs => unfold stPass
    simp [he]
  | cons x xs ih =>
    intro post acc
    simp only [List.cons_append]
    conv_lhs => unfold stPass
    conv_rhs => unfold stPass
    cases hx : stParse x with
    | error er => simp
    | ok t? =>
      cases t? with
      | none => simp only; exact ih post acc
      | some t => simp only; exact ih post _

lemma calculate_vetting_progress_false_eq (sd : JObj) :
    calculate_vetting_progress sd false = vettingFallbackSpec sd := by
  unfold calculate_vetting_progress vettingFallbackSpec
  simp only [Bool.false_eq_true, if_false]
  split
  · next h =>
    have hz : (0 : ℚ) ≤ pymin (safe_float (objGet sd "vettingProgress" (.vfloat 0)) 0) 1 := by
      unfold pymin
      split
      · exact le_of_lt h
      · exact zero_le_one
    unfold pymax
    rw [if_pos hz]
  · rfl

lemma updateScores_satellite_id (m : List (JVal × JObj)) (st : SatelliteStatus) :
    (updateScores m st).satellite_id = st.satellite_id := by
  unfold updateScores
  split <;> rfl

lemma updateScores_is_vetted (m : List (JVal × JObj)) (st : SatelliteStatus) :
    (updateScores m st).is_vetted = st.is_vetted := by
  unfold updateScores
  split <;> rfl

lemma updateScores_vetting_progress (m : List (JVal × JObj)) (st : SatelliteStatus) :
    (updateScores m st).vetting_progress = st.vetting_progress := by
  unfold updateScores
  split <;> rfl

lemma updateScores_vetted_at (m : List (JVal × JObj)) (st : SatelliteStatus) :
    (updateScores m st).vetted_at = st.vetted_at := by
  unfold updateScores
  split <;> rfl

lemma updateScores_current_month_egress (m : List (JVal × JObj)) (st : SatelliteStatus) :
    (updateScores m st).current_month_egress = st.current_month_egress := by
  unfold updateScores
  split <;> rfl

lemma updateScores_current_month_ingress (m : List (JVal × JObj)) (st : SatelliteStatus) :
    (updateScores m st).current_month_ingress = st.current_month_ingress := by
  unfold updateScores
  split <;> rfl

lemma processSatelliteEntry_skip {n : String} {now : PyDateTime} {sd : JObj}
    (h : registryLookup (objGet sd "id" (.vstr "")) = .ok none) :
    processSatelliteEntry n now sd = .ok none := by
  unfold processSatelliteEntry
  rw [h]

lemma processSatelliteEntry_ok_char {n : String} {now : PyDateTime} {sd : JObj}
    {r : SatelliteStatus} (h : processSatelliteEntry n now sd = .ok (some r)) :
    ∃ k, registryLookup (objGet sd "id" (.vstr "")) = .ok (some k) ∧
      r.satellite_id = k.1 ∧
      r.is_vetted = !(isNoneVal (objGet sd "vettedAt" .vnull)) ∧
      r.vetting_progress =
        (if r.is_vetted then 1 else calculate_vetting_progress sd r.is_vetted) ∧
      r.current_month_egress = safe_int (objGet sd "currentMonthEgress" (.vint 0)) 0 ∧
      r.current_month_ingress = safe_int (objGet sd "currentMonthIngress" (.vint 0)) 0 := by
  unfold processSatelliteEntry at h
  split at h
  · exact absurd h (by simp)
  · exact absurd h (by simp)
  · next k heq =>
    split at h
    · exact absurd h (by simp)
    · split at h
      · exact absurd h (by simp)
      · simp only [Except.ok.injEq, Option.some.injEq] at h
        subst h
        exact ⟨k, heq, by simp⟩

lemma extract_status_mem {n : String} {now : PyDateTime} {ni : StorjNodeInfo}
    {si : StorjSatelliteInfo} {l : List SatelliteStatus} {r : SatelliteStatus}
    (h : extract_satellite_status n now ni si = .ok l) (hr : r ∈ l) :
    ∃ sd ∈ ni.satellites.getD [], ∃ r0, processSatelliteEntry n now sd = .ok (some r0) ∧
      (r = r0 ∨ ∃ m, r = updateScores m r0) := by
  unfold extract_satellite_status at h
  split at h
  · exact absurd h (by simp)
  · next base hbase =>
    by_cases hemp : si.audits.isEmpty = true
    · rw [if_pos hemp] at h
      injection h with h
      subst h
      rcases collectSteps_mem hbase hr with ⟨sd, hsd, hstep⟩
      exact ⟨sd, hsd, r, hstep, Or.inl rfl⟩
    · rw [if_neg hemp] at h
      cases hbm : buildAuditMap si.audits with
      | error e => rw [hbm] at h; exact absurd h (by simp)
      | ok m =>
        rw [hbm] at h
        injection h with h
        subst h
        rcases List.mem_map.mp hr with ⟨r0, hr0, rfl⟩
        rcases collectSteps_mem hbase hr0 with ⟨sd, hsd, hstep⟩
        exact ⟨sd, hsd, r0, hstep, Or.inr ⟨m, rfl⟩⟩

lemma known_id_not_empty {s : String} (h : (lookupKnown s).isSome = true) :
    (s == "") = false := by
  cases hc : s == ""
  · rfl
  · have hs : s = "" := eq_of_beq hc
    subst hs
    exact absurd h (by decide)

lemma timestamp_vstr_no_attr {s : String} :
    timestamp_to_datetime (.vstr s) ≠ .error .attributeError := by
  unfold timestamp_to_datetime
  cases h1 : fromisoformat (pyReplace s "Z" "+00:00") with
  | some dt => simp [h1]
  | none =>
    cases h2 : fromisoformat (pyReplace (pyReplace s "Z" "+00:00") "+00:00" "") with
    | some dt => simp [h1, h2]
    | none => simp [h1, h2]

lemma tryParseTs_vstr_ok (s : String) : ∃ o, tryParseTs (.vstr s) = .ok o := by
  unfold tryParseTs
  cases h : timestamp_to_datetime (.vstr s) with
  | ok t => exact ⟨some t, rfl⟩
  | error e =>
    cases e with
    | valueError => exact ⟨none, rfl⟩
    | typeError => exact ⟨none, rfl⟩
    | attributeError => exact absurd h timestamp_vstr_no_attr

/-- The condition under which every daily-interval loop skips an entry by its
interval start: a falsy value, or a string failing to parse. -/
def droppedInterval (v : JVal) : Prop :=
  isFalsy v = true ∨ timestamp_to_datetime v = .error .valueError

lemma bwDailyStep_skip {n : String} {e : JObj}
    (h : droppedInterval (objGet e "intervalStart" (.vstr ""))) :
    bwDailyStep n e = .ok none := by
  unfold bwDailyStep
  by_cases hf : isFalsy (objGet e "intervalStart" (.vstr "")) = true
  · simp [hf]
  · rcases h with h | h
    · exact absurd h hf
    · simp [hf, h]

lemma dailyBwStep_skip {n : String} {e : JObj}
    (h : droppedInterval (objGet e "intervalStart" (.vstr ""))) :
    dailyBwStep n e = .ok none := by
  unfold dailyBwStep
  by_cases hf : isFalsy (objGet e "intervalStart" (.vstr "")) = true
  · simp [hf]
  · rcases h with h | h
    · exact absurd h hf
    · simp [hf, h]

lemma dailyStorageStep_skip {n : String} {e : JObj}
    (h : droppedInterval (objGet e "intervalStart" (.vstr ""))) :
    dailyStorageStep n e = .ok none := by
  unfold dailyStorageStep
  by_cases hf : isFalsy (objGet e "intervalStart" (.vstr "")) = true
  · simp [hf]
  · rcases h with h | h
    · exact absurd h hf
    · simp [hf, h]

lemma stParse_skip {e : JObj}
    (h : droppedInterval (objGet e "intervalStart" (.vstr ""))) :
    stParse e = .ok none := by
  unfold stParse
  by_cases hf : isFalsy (objGet e "intervalStart" (.vstr "")) = true
  · simp [hf]
  · rcases h with h | h
    · exact absurd h hf
    · simp [hf, h]

/-- The condition under which the daily loops drop an entry by its satellite
id without raising: a falsy id, or a hashable id absent from the registry. -/
def droppedSid (v : JVal) : Prop :=
  isFalsy v = true ∨ registryLookup v = .ok none

lemma bwDailyStep_skip_sid {n : String} {e : JObj}
    (hiv : isFalsy (objGet e "intervalStart" (.vstr "")) = true ∨
      timestamp_to_datetime (objGet e "intervalStart" (.vstr "")) ≠ .error .attributeError)
    (hsid : droppedSid (objGet e "satelliteId" .vnull)) :
    bwDailyStep n e = .ok none := by
  unfold bwDailyStep
  by_cases hf : isFalsy (objGet e "intervalStart" (.vstr "")) = true
  · simp [hf]
  · cases ht : timestamp_to_datetime (objGet e "intervalStart" (.vstr "")) with
    | error er =>
      cases er with
      | valueError => simp [hf, ht]
      | typeError => simp [hf, ht]
      | attributeError =>
        rcases hiv with hiv | hiv
        · exact absurd hiv hf
        · exact absurd ht hiv
    | ok dt =>
      rcases hsid with hs | hs
      · simp [hf, ht, hs]
      · simp [hf, ht, hs]

lemma stParse_skip_sid {e : JObj}
    (hiv : isFalsy (objGet e "intervalStart" (.vstr "")) = true ∨
      timestamp_to_datetime (objGet e "intervalStart" (.vstr "")) ≠ .error .attributeError)
    (hsid : droppedSid (objGet e "satelliteId" .vnull)) :
    stParse e = .ok none := by
  unfold stParse
  by_cases hf : isFalsy (objGet e "intervalStart" (.vstr "")) = true
  · simp [hf]
  · cases ht : timestamp_to_datetime (objGet e "intervalStart" (.vstr "")) with
    | error er =>
      cases er with
      | valueError => simp [hf, ht]
      | typeError => simp [hf, ht]
      | attributeError =>
        rcases hiv with hiv | hiv
        · exact absurd hiv hf
        · exact absurd ht hiv
    | ok dt =>
      rcases hsid with hs | hs
      · simp [hf, ht, hs]
      · simp [hf, ht, hs]

lemma processSatelliteEntry_produces (n : String) (now : PyDateTime) {e : JObj}
    {k : String × String × String} {va jo : Option PyDateTime}
    (hreg : registryLookup (objGet e "id" (.vstr "")) = .ok (some k))
    (hva : (if !(isNoneVal (objGet e "vettedAt" .vnull)) then
        tryParseTs (objGet e "vettedAt" .vnull) else .ok none) = .ok va)
    (hjo : (if isFalsy (objGet e "joinedAt" .vnull) then .ok none
        else tryParseTs (objGet e "joinedAt" .vnull)) = .ok jo) :
    processSatelliteEntry n now e = .ok (some
      { node_name := n
        satellite_id := k.1
        satellite_name := k.2.1
        satellite_region := k.2.2
        timestamp := now
        is_vetted := !(isNoneVal (objGet e "vettedAt" .vnull))
        vetting_progress :=
          if !(isNoneVal (objGet e "vettedAt" .vnull)) then 1
          else calculate_vetting_progress e (!(isNoneVal (objGet e "vettedAt" .vnull)))
        vetted_at := va
        audit_score := 1
        suspension_score := 1
        online_score := 1
        joined_at := jo
        current_month_egress := safe_int (objGet e "currentMonthEgress" (.vint 0)) 0
        current_month_ingress := safe_int (objGet e "currentMonthIngress" (.vint 0)) 0 }) := by
  unfold processSatelliteEntry
  simp only [hreg, hva, hjo]

/-- Collapsing `extract_satellite_status` on a single-entry satellite list
with an empty audits list. -/
lemma extract_single_no_audits {n : String} {now : PyDateTime} {e : JObj}
    {sdl bdl : Option (List JObj)} {r : SatelliteStatus}
    (hpe : processSatelliteEntry n now e = .ok (some r)) :
    extract_satellite_status n now ⟨some [e]⟩ ⟨sdl, bdl, []⟩ = .ok [r] := by
  unfold extract_satellite_status
  simp [collectSteps, hpe]

lemma bwDailyStep_ok_char {n : String} {e : JObj} {r : DailySatelliteMetric}
    (h : bwDailyStep n e = .ok (some r)) :
    r.storage_used_bytes = 0 ∧ r.storage_at_rest_bytes = 0 ∧
      (lookupKnown r.satellite_id).isSome = true := by
  unfold bwDailyStep at h
  split at h
  · exact absurd h (by simp)
  · split at h
    · exact absurd h (by simp)
    · exact absurd h (by simp)
    · exact absurd h (by simp)
    · split at h
      · exact absurd h (by simp)
      · split at h
        · exact absurd h (by simp)
        · exact absurd h (by simp)
        · next k hreg =>
          split at h
          · exact absurd h (by simp)
          · simp only [Except.ok.injEq, Option.some.injEq] at h
            subst h
            exact ⟨rfl, rfl, lookupKnown_of_registry hreg⟩

lemma stParse_ok_char {e : JObj} {t : String × PyDate × Int}
    (h : stParse e = .ok (some t)) : (lookupKnown t.1).isSome = true := by
  unfold stParse at h
  split at h
  · exact absurd h (by simp)
  · split at h
    · exact absurd h (by simp)
    · exact absurd h (by simp)
    · exact absurd h (by simp)
    · split at h
      · exact absurd h (by simp)
      · split at h
        · exact absurd h (by simp)
        · exact absurd h (by simp)
        · next k hreg =>
          simp only [Except.ok.injEq, Option.some.injEq] at h
          subst h
          exact lookupKnown_of_registry hreg

/-! Claim theorems. -/

/-- C1 (amended): for every vetting-status record produced by
`extract_satellite_status`, `is_vetted = true` implies
`vetting_progress = 1.0`.  (The converse direction of the original claim is
false: the fallback heuristics can drive `vetting_progress` to 1.0 while
`is_vetted` stays false; see the counterexample.) -/
theorem c1_vetted_implies_progress_one
    (n : String) (now : PyDateTime) (ni : StorjNodeInfo) (si : StorjSatelliteInfo)
    (l : List SatelliteStatus) (h : extract_satellite_status n now ni si = .ok l)
    (r : SatelliteStatus) (hr : r ∈ l) (hv : r.is_vetted = true) :
    r.vetting_progress = 1 := by
  rcases extract_status_mem h hr with ⟨sd, -, r0, hpe, hcase⟩
  rcases processSatelliteEntry_ok_char hpe with ⟨k, -, -, -, hprog, -, -⟩
  have hvet0 : r0.is_vetted = true := by
    rcases hcase with rfl | ⟨m, rfl⟩
    · exact hv
    · rwa [updateScores_is_vetted] at hv
  have hp0 : r0.vetting_progress = 1 := by
    rw [hprog, hvet0]
    simp
  rcases hcase with rfl | ⟨m, rfl⟩
  · exact hp0
  · rw [updateScores_vetting_progress]
    exact hp0

/-- C1 witness: a vetted us1 entry yields a record with `is_vetted = true`,
and the theorem forces its progress to 1. -/
theorem c1_vetted_implies_progress_one_witness : wVettedRec.vetting_progress = 1 :=
  c1_vetted_implies_progress_one "n" wNow
    ⟨some [[("id", .vstr us1Id), ("vettedAt", .vstr "2024-01-01T00:00:00Z")]]⟩
    wEmptySat [wVettedRec] (by rfl) wVettedRec (by simp) (by rfl)

/-- C1 counterexample: an unvetted us1 entry carrying an explicit
`vettingProgress = 1.0` produces a record with `vetting_progress = 1.0` and
`is_vetted = false`, so `is_vetted ↔ vetting_progress = 1.0` fails in the
right-to-left direction. -/
theorem c1_counterexample :
    (extract_satellite_status "n" wNow
        ⟨some [[("id", .vstr us1Id), ("vettingProgress", .vfloat 1)]]⟩ wEmptySat).map
        (List.map (fun r => (r.is_vetted, r.vetting_progress)))
      = .ok [(false, 1)] ∧ ¬((false = true) ↔ ((1 : ℚ) = 1)) := by
  constructor
  · rfl
  · simp

/-- C2: a satellite entry with `vettedAt` absent (null) yields a record with
`is_vetted = false` and `vetting_progress` given exactly by the spec's
fallback priority (`vettingFallbackSpec`): explicit positive
`vettingProgress` clamped to at most 1, else the current-month bandwidth
heuristic capped at 1, else 0. -/
theorem c2_unvetted_fallback_progress
    (n : String) (now : PyDateTime) (e : JObj) (sdl bdl : Option (List JObj))
    (ks : String) (knr : String × String)
    (hid : objGet e "id" (.vstr "") = .vstr ks)
    (hk : lookupKnown ks = some knr)
    (hv : objGet e "vettedAt" .vnull = .vnull)
    (hj : isFalsy (objGet e "joinedAt" .vnull) = true ∨
      ∃ s, objGet e "joinedAt" .vnull = .vstr s) :
    ∃ r, extract_satellite_status n now ⟨some [e]⟩ ⟨sdl, bdl, []⟩ = .ok [r] ∧
      r.is_vetted = false ∧ r.vetting_progress = vettingFallbackSpec e := by
  have hreg : registryLookup (objGet e "id" (.vstr "")) = .ok (some (ks, knr.1, knr.2)) := by
    rw [hid]
    simp [registryLookup, hk]
  have hva : (if !(isNoneVal (objGet e "vettedAt" .vnull)) then
      tryParseTs (objGet e "vettedAt" .vnull) else .ok none) = .ok none := by
    rw [hv]
    simp [isNoneVal]
  have hjo : ∃ jo, (if isFalsy (objGet e "joinedAt" .vnull) then Except.ok none
      else tryParseTs (objGet e "joinedAt" .vnull)) = .ok jo := by
    rcases hj with hj | ⟨s, hj⟩
    · exact ⟨none, by simp [hj]⟩
    · by_cases hf : isFalsy (objGet e "joinedAt" .vnull) = true
      · exact ⟨none, by simp [hf]⟩
      · rcases tryParseTs_vstr_ok s with ⟨o, ho⟩
        refine ⟨o, ?_⟩
        rw [if_neg hf, hj, ho]
  rcases hjo with ⟨jo, hjo⟩
  have hpe := processSatelliteEntry_produces n now hreg hva hjo
  refine ⟨_, extract_single_no_audits hpe, ?_, ?_⟩
  · simp [hv, isNoneVal]
  · simp only [hv, isNoneVal, Bool.not_true]
    rw [if_neg (by simp)]
    exact calculate_vetting_progress_false_eq e

/-- C2 witness: the spec's end-to-end scenario — 2000 GiB of current-month
ingress, no `vettingProgress` field — yields `is_vetted = false` with the
bandwidth heuristic capped at 1. -/
theorem c2_unvetted_fallback_progress_witness :
    (∃ r, extract_satellite_status "n" wNow
        ⟨some [[("id", .vstr us1Id), ("currentMonthIngress", .vint 2147483648000)]]⟩
        ⟨some [], some [], []⟩ = .ok [r] ∧
      r.is_vetted = false ∧
      r.vetting_progress =
        vettingFallbackSpec [("id", .vstr us1Id), ("currentMonthIngress", .vint 2147483648000)]) ∧
    vettingFallbackSpec [("id", .vstr us1Id), ("currentMonthIngress", .vint 2147483648000)] = 1 := by
  constructor
  · exact c2_unvetted_fallback_progress "n" wNow _ (some []) (some [])
      us1Id ("us1", "North America") (by rfl) (by rfl) (by rfl) (Or.inl (by rfl))
  · have h1 : safe_float (objGet [("id", .vstr us1Id),
        ("currentMonthIngress", .vint 2147483648000)] "vettingProgress" (.vfloat 0)) 0 = 0 := rfl
    have h2 : safe_int (objGet [("id", .vstr us1Id),
        ("currentMonthIngress", .vint 2147483648000)] "currentMonthIngress" (.vint 0)) 0
        = 2147483648000 := rfl
    have h3 : safe_int (objGet [("id", .vstr us1Id),
        ("currentMonthIngress", .vint 2147483648000)] "currentMonthEgress" (.vint 0)) 0 = 0 := rfl
    simp only [vettingFallbackSpec]
    rw [h1, h2, h3]
    norm_num [pymin]

/-- C9 (amended): a satellite entry whose `vettedAt` is a string that fails
to parse still yields a record with `is_vetted = true`,
`vetting_progress = 1.0` and `vetted_at = null` (the `ValueError` is
swallowed).  (The original claim fails for non-string `vettedAt` values,
which raise `AttributeError`; see the counterexample.) -/
theorem c9_string_unparseable_vetted_at
    (n : String) (now : PyDateTime) (e : JObj) (sdl bdl : Option (List JObj))
    (ks vs : String) (knr : String × String)
    (hid : objGet e "id" (.vstr "") = .vstr ks)
    (hk : lookupKnown ks = some knr)
    (hv : objGet e "vettedAt" .vnull = .vstr vs)
    (hbad : timestamp_to_datetime (.vstr vs) = .error .valueError)
    (hj : isFalsy (objGet e "joinedAt" .vnull) = true ∨
      ∃ s, objGet e "joinedAt" .vnull = .vstr s) :
    ∃ r, extract_satellite_status n now ⟨some [e]⟩ ⟨sdl, bdl, []⟩ = .ok [r] ∧
      r.is_vetted = true ∧ r.vetting_progress = 1 ∧ r.vetted_at = none := by
  have hreg : registryLookup (objGet e "id" (.vstr "")) = .ok (some (ks, knr.1, knr.2)) := by
    rw [hid]
    simp [registryLookup, hk]
  have hva : (if !(isNoneVal (objGet e "vettedAt" .vnull)) then
      tryParseTs (objGet e "vettedAt" .vnull) else .ok none) = .ok none := by
    rw [hv]
    simp [isNoneVal, tryParseTs, hbad]
  have hjo : ∃ jo, (if isFalsy (objGet e "joinedAt" .vnull) then Except.ok none
      else tryParseTs (objGet e "joinedAt" .vnull)) = .ok jo := by
    rcases hj with hj | ⟨s, hj⟩
    · exact ⟨none, by simp [hj]⟩
    · by_cases hf : isFalsy (objGet e "joinedAt" .vnull) = true
      · exact ⟨none, by simp [hf]⟩
      · rcases tryParseTs_vstr_ok s with ⟨o, ho⟩
        refine ⟨o, ?_⟩
        rw [if_neg hf, hj, ho]
  rcases hjo with ⟨jo, hjo⟩
  have hpe := processSatelliteEntry_produces n now hreg hva hjo
  refine ⟨_, extract_single_no_audits hpe, ?_, ?_, rfl⟩
  · simp [hv, isNoneVal]
  · simp [hv, isNoneVal]

/-- C9 witness: `vettedAt = "not-a-timestamp"` on a known satellite still
produces a vetted record with a null `vetted_at`. -/
theorem c9_string_unparseable_vetted_at_witness :
    ∃ r, extract_satellite_status "n" wNow
        ⟨some [[("id", .vstr us1Id), ("vettedAt", .vstr "not-a-timestamp")]]⟩
        ⟨some [], some [], []⟩ = .ok [r] ∧
      r.is_vetted = true ∧ r.vetting_progress = 1 ∧ r.vetted_at = none :=
  c9_string_unparseable_vetted_at "n" wNow _ (some []) (some [])
    us1Id "not-a-timestamp" ("us1", "North America")
    (by rfl) (by rfl) (by rfl) (by rfl) (Or.inl (by rfl))

/-- C9 counterexample: a non-string `vettedAt` (the integer 5) makes
`extract_satellite_status` raise `AttributeError` instead of producing a
vetted record — the claim fails for non-string unparseable timestamps. -/
theorem c9_counterexample :
    extract_satellite_status "n" wNow
        ⟨some [[("id", .vstr us1Id), ("vettedAt", .vint 5)]]⟩ wEmptySat
      = .error .attributeError := by rfl

/-- C10: every record returned by `extract_daily_satellite_metrics` satisfies
`storage_used_bytes = storage_at_rest_bytes` — both are 0 for bandwidth-only
records and both equal the at-rest byte count otherwise. -/
theorem c10_storage_fields_equal
    (n : String) (si : StorjSatelliteInfo) (l : List DailySatelliteMetric)
    (h : extract_daily_satellite_metrics n si = .ok l) :
    ∀ r ∈ l, r.storage_used_bytes = r.storage_at_rest_bytes := by
  unfold extract_daily_satellite_metrics at h
  split at h
  · exact absurd h (by simp)
  · next base hbase =>
    have hbaseInv : ∀ m ∈ base, m.storage_used_bytes = m.storage_at_rest_bytes := by
      intro m hm
      rcases collectSteps_mem hbase hm with ⟨e, -, hstep⟩
      rcases bwDailyStep_ok_char hstep with ⟨h0, h1, -⟩
      rw [h0, h1]
    exact stPass_forall (fun m => m.storage_used_bytes = m.storage_at_rest_bytes)
      (fun b m _ => by simp [setStorage])
      (fun e sid d b _ => by simp [newStorageMetric])
      hbaseInv h

/-- C10 witness: the merged bandwidth-and-storage record of the concrete
scenario has equal storage fields. -/
theorem c10_storage_fields_equal_witness :
    wMergedRec.storage_used_bytes = wMergedRec.storage_at_rest_bytes :=
  c10_storage_fields_equal "n" ⟨some [wStEntry], some [wBwEntry], []⟩ [wMergedRec]
    (by rfl) wMergedRec (by simp)

/-- C6 (spec-modelled key): with the daily-aggregate table keyed by
`(node, date)` as the spec states (the schema files are not part of the
source tree), `INSERT OR REPLACE` of A then A2 for the same key leaves
exactly one row for that key, equal to A2 in full — replacement, never
increment; consecutive cycles compose to the same fold. -/
theorem c6_daily_aggregate_replace
    (t : List DailyBandwidthMetrics) (A A2 : DailyBandwidthMetrics)
    (hk : dailyBwConflict A A2 = true) :
    (storeDailyBandwidth (storeDailyBandwidth t [A]) [A2]).filter
        (fun r => dailyBwConflict r A) = [A2]
    ∧ storeDailyBandwidth (storeDailyBandwidth t [A]) [A2] = storeDailyBandwidth t [A, A2] := by
  have hkey : A.node_name = A2.node_name ∧ A.date = A2.date := by
    simpa [dailyBwConflict] using hk
  have hcongr : ∀ r, dailyBwConflict r A = dailyBwConflict r A2 := by
    intro r
    unfold dailyBwConflict
    rw [hkey.1, hkey.2]
  constructor
  · show ((insertOrReplaceDailyBw (insertOrReplaceDailyBw t A) A2).filter
        (fun r => dailyBwConflict r A)) = [A2]
    unfold insertOrReplaceDailyBw
    rw [List.filter_append, List.filter_filter]
    have h1 : ∀ (l : List DailyBandwidthMetrics),
        l.filter (fun a => dailyBwConflict a A && !dailyBwConflict a A2) = [] := by
      intro l
      apply List.filter_eq_nil_iff.mpr
      intro a _
      rw [hcongr a]
      cases dailyBwConflict a A2 <;> simp
    rw [h1]
    have hself : dailyBwConflict A2 A = true := by
      rw [hcongr A2]
      simp [dailyBwConflict]
    simp [hself]
  · rfl

/-- C6 witness: two rows with the same `(node, date)` key and different
figures; storing both leaves exactly the second. -/
theorem c6_daily_aggregate_replace_witness :
    (storeDailyBandwidth (storeDailyBandwidth []
        [⟨"n", ⟨2025, 9, 14⟩, 1, 2, 3, 4, 5, 6⟩]) [⟨"n", ⟨2025, 9, 14⟩, 7, 8, 9, 10, 11, 12⟩]).filter
        (fun r => dailyBwConflict r ⟨"n", ⟨2025, 9, 14⟩, 1, 2, 3, 4, 5, 6⟩)
      = [⟨"n", ⟨2025, 9, 14⟩, 7, 8, 9, 10, 11, 12⟩] :=
  (c6_daily_aggregate_replace [] ⟨"n", ⟨2025, 9, 14⟩, 1, 2, 3, 4, 5, 6⟩
    ⟨"n", ⟨2025, 9, 14⟩, 7, 8, 9, 10, 11, 12⟩ (by rfl)).1

/-- C8 (amended): `calculate_uptime_seconds` returns `now − started_at` in
whole seconds when the timestamp parses to an aware datetime (which may be
negative when `started_at` lies in the future), and returns 0 when parsing
fails with `ValueError` or when the parse yields a naive datetime (the
aware-minus-naive `TypeError` is swallowed).  A negative result occurs
exactly when the parsed start instant is after `now`. -/
theorem c8_uptime_spec (now : PyDateTime) (s : String) :
    (timestamp_to_datetime (.vstr s) = .error .valueError →
      calculate_uptime_seconds now s = 0)
    ∧ (∀ t, timestamp_to_datetime (.vstr s) = .ok t → now.tz.isSome = t.tz.isSome →
        calculate_uptime_seconds now s = epochSecs now - epochSecs t)
    ∧ (∀ t, timestamp_to_datetime (.vstr s) = .ok t → ¬(now.tz.isSome = t.tz.isSome) →
        calculate_uptime_seconds now s = 0)
    ∧ (calculate_uptime_seconds now s < 0 →
        ∃ t, timestamp_to_datetime (.vstr s) = .ok t ∧ epochSecs now < epochSecs t) := by
  refine ⟨?_, ?_, ?_, ?_⟩
  · intro h
    simp [calculate_uptime_seconds, h]
  · intro t ht htz
    simp [calculate_uptime_seconds, ht, pySubSecs, htz]
  · intro t ht htz
    have hne : (now.tz.isSome == t.tz.isSome) = false := by
      simpa using htz
    simp [calculate_uptime_seconds, ht, pySubSecs, hne]
  · intro hneg
    cases ht : timestamp_to_datetime (.vstr s) with
    | error e =>
      exfalso
      simp [calculate_uptime_seconds, ht] at hneg
    | ok t =>
      by_cases htz : now.tz.isSome = t.tz.isSome
      · have hc : calculate_uptime_seconds now s = epochSecs now - epochSecs t := by
          simp [calculate_uptime_seconds, ht, pySubSecs, htz]
        rw [hc] at hneg
        exact ⟨t, rfl, by omega⟩
      · exfalso
        have hne : (now.tz.isSome == t.tz.isSome) = false := by
          simpa using htz
        simp [calculate_uptime_seconds, ht, pySubSecs, hne] at hneg

/-- C8 witness: the repository's own test scenario — started one hour before
`now` — yields 3600 seconds. -/
theorem c8_uptime_spec_witness :
    calculate_uptime_seconds wNow "2025-09-14T22:00:00Z" = 3600 := by
  have h := (c8_uptime_spec wNow "2025-09-14T22:00:00Z").2.1
    ⟨⟨2025, 9, 14⟩, 79200, some 0⟩ (by rfl) (by rfl)
  rw [h]
  decide

/-- C8 counterexample: a `started_at` one day in the future parses and yields
a negative uptime, refuting the claim's "never returns a negative value". -/
theorem c8_counterexample :
    calculate_uptime_seconds wNow "2025-09-15T23:00:00Z" = -86400 ∧ (-86400 : Int) < 0 :=
  ⟨rfl, by decide⟩

/-- C3 (amended): a satellite ID not present in `KNOWN_SATELLITES` never
appears in any record of `extract_satellite_status` or
`extract_daily_satellite_metrics`, and an entry with an unregistered
*hashable* id (for the daily loops: falsy or unregistered-hashable id, with
an interval start that does not itself raise) is dropped without error —
removing it leaves the result unchanged.  (The original claim fails when the
id is a non-empty JSON array or object: hashing it in the registry
membership test raises `TypeError`; see the counterexample.) -/
theorem c3_unknown_satellites_dropped :
    (∀ (n : String) (now : PyDateTime) (ni : StorjNodeInfo) (si : StorjSatelliteInfo)
        (l : List SatelliteStatus), extract_satellite_status n now ni si = .ok l →
        ∀ r ∈ l, (lookupKnown r.satellite_id).isSome = true)
    ∧ (∀ (n : String) (si : StorjSatelliteInfo) (l : List DailySatelliteMetric),
        extract_daily_satellite_metrics n si = .ok l →
        ∀ r ∈ l, (lookupKnown r.satellite_id).isSome = true)
    ∧ (∀ (n : String) (now : PyDateTime) (pre post : List JObj)
        (si : StorjSatelliteInfo) (e : JObj),
        registryLookup (objGet e "id" (.vstr "")) = .ok none →
        extract_satellite_status n now ⟨some (pre ++ e :: post)⟩ si
          = extract_satellite_status n now ⟨some (pre ++ post)⟩ si)
    ∧ (∀ (n : String) (sd : Option (List JObj)) (pre post au : List JObj) (e : JObj),
        (isFalsy (objGet e "intervalStart" (.vstr "")) = true ∨
          timestamp_to_datetime (objGet e "intervalStart" (.vstr "")) ≠ .error .attributeError) →
        droppedSid (objGet e "satelliteId" .vnull) →
        extract_daily_satellite_metrics n ⟨sd, some (pre ++ e :: post), au⟩
          = extract_daily_satellite_metrics n ⟨sd, some (pre ++ post), au⟩
        ∧ extract_daily_satellite_metrics n ⟨some (pre ++ e :: post), sd, au⟩
          = extract_daily_satellite_metrics n ⟨some (pre ++ post), sd, au⟩) := by
  refine ⟨?_, ?_, ?_, ?_⟩
  · intro n now ni si l h r hr
    rcases extract_status_mem h hr with ⟨sd, -, r0, hpe, hcase⟩
    rcases processSatelliteEntry_ok_char hpe with ⟨k, hreg, hsat, -, -, -, -⟩
    have h0 : (lookupKnown r0.satellite_id).isSome = true := by
      rw [hsat]
      exact lookupKnown_of_registry hreg
    rcases hcase with rfl | ⟨m, rfl⟩
    · exact h0
    · rwa [updateScores_satellite_id]
  · intro n si l h r hr
    unfold extract_daily_satellite_metrics at h
    split at h
    · exact absurd h (by simp)
    · next base hbase =>
      have hbaseInv : ∀ m ∈ base, (lookupKnown m.satellite_id).isSome = true := by
        intro m hm
        rcases collectSteps_mem hbase hm with ⟨e, -, hstep⟩
        exact (bwDailyStep_ok_char hstep).2.2
      refine stPass_forall (fun m => (lookupKnown m.satellite_id).isSome = true)
        (fun b m hm => by simpa [setStorage] using hm)
        (fun e sid d b hp => by simpa [newStorageMetric] using stParse_ok_char hp)
        hbaseInv h r hr
  · intro n now pre post si e hreg
    unfold extract_satellite_status
    rw [show (StorjNodeInfo.mk (some (pre ++ e :: post))).satellites.getD []
        = pre ++ e :: post from rfl,
      show (StorjNodeInfo.mk (some (pre ++ post))).satellites.getD [] = pre ++ post from rfl,
      collectSteps_skip (processSatelliteEntry_skip hreg) pre post]
  · intro n sd pre post au e hiv hsid
    constructor
    · unfold extract_daily_satellite_metrics
      rw [show (StorjSatelliteInfo.mk sd (some (pre ++ e :: post)) au).bandwidth_daily.getD []
          = pre ++ e :: post from rfl,
        show (StorjSatelliteInfo.mk sd (some (pre ++ post)) au).bandwidth_daily.getD []
          = pre ++ post from rfl,
        collectSteps_skip (bwDailyStep_skip_sid hiv hsid) pre post]
    · cases hh : collectSteps (bwDailyStep n) (sd.getD []) with
      | error er => simp [extract_daily_satellite_metrics, hh]
      | ok base =>
        simp only [extract_daily_satellite_metrics, hh]
        exact stPass_skip (stParse_skip_sid hiv hsid) pre post base

/-- C3 witness: an entry with the unregistered id `"unknownSat"` is dropped
— prepending it to a satellite list leaves the extraction unchanged. -/
theorem c3_unknown_satellites_dropped_witness :
    extract_satellite_status "n" wNow
        ⟨some ([] ++ [("id", JVal.vstr "unknownSat")] ::
          [[("id", .vstr us1Id), ("vettedAt", .vstr "2024-01-01T00:00:00Z")]])⟩ wEmptySat
      = extract_satellite_status "n" wNow
        ⟨some ([] ++ [[("id", .vstr us1Id), ("vettedAt", .vstr "2024-01-01T00:00:00Z")]])⟩
        wEmptySat :=
  c3_unknown_satellites_dropped.2.2.1 "n" wNow []
    [[("id", .vstr us1Id), ("vettedAt", .vstr "2024-01-01T00:00:00Z")]]
    wEmptySat [("id", JVal.vstr "unknownSat")] (by rfl)

/-- C3 counterexample: an entry whose satellite id is a non-empty JSON array
is not dropped — both extractions raise `TypeError` (unhashable dict key). -/
theorem c3_counterexample :
    extract_satellite_status "n" wNow ⟨some [[("id", .vlist [.vint 1])]]⟩ wEmptySat
      = .error .typeError
    ∧ extract_daily_satellite_metrics "n" ⟨some [], some
        [[("intervalStart", .vstr "2025-09-14T00:00:00Z"), ("satelliteId", .vlist [.vint 1])]],
        []⟩ = .error .typeError :=
  ⟨rfl, rfl⟩

/-- C7 (amended): the daily bandwidth, storage and per-satellite extractions
skip any entry whose interval start is missing/falsy or a string that fails
to parse, and never raise because of such an entry — removing it leaves each
result unchanged.  (The original "of any type" fails: a truthy non-string
interval start raises `AttributeError`; see the counterexample.) -/
theorem c7_skip_unparseable_interval
    (n : String) (sd bd : Option (List JObj)) (au pre post : List JObj) (e : JObj)
    (h : droppedInterval (objGet e "intervalStart" (.vstr ""))) :
    extract_daily_bandwidth_metrics n ⟨sd, some (pre ++ e :: post), au⟩
      = extract_daily_bandwidth_metrics n ⟨sd, some (pre ++ post), au⟩
    ∧ extract_daily_storage_metrics n ⟨some (pre ++ e :: post), bd, au⟩
      = extract_daily_storage_metrics n ⟨some (pre ++ post), bd, au⟩
    ∧ extract_daily_satellite_metrics n ⟨sd, some (pre ++ e :: post), au⟩
      = extract_daily_satellite_metrics n ⟨sd, some (pre ++ post), au⟩
    ∧ extract_daily_satellite_metrics n ⟨some (pre ++ e :: post), bd, au⟩
      = extract_daily_satellite_metrics n ⟨some (pre ++ post), bd, au⟩ := by
  refine ⟨?_, ?_, ?_, ?_⟩
  · exact collectSteps_skip (dailyBwStep_skip h) pre post
  · exact collectSteps_skip (dailyStorageStep_skip h) pre post
  · unfold extract_daily_satellite_metrics
    rw [show (StorjSatelliteInfo.mk sd (some (pre ++ e :: post)) au).bandwidth_daily.getD []
        = pre ++ e :: post from rfl,
      show (StorjSatelliteInfo.mk sd (some (pre ++ post)) au).bandwidth_daily.getD []
        = pre ++ post from rfl,
      collectSteps_skip (bwDailyStep_skip h) pre post]
  · cases hh : collectSteps (bwDailyStep n) (bd.getD []) with
    | error er => simp [extract_daily_satellite_metrics, hh]
    | ok base =>
      simp only [extract_daily_satellite_metrics, hh]
      exact stPass_skip (stParse_skip h) pre post base

/-- C7 witness: an entry with the unparseable interval start `"junk"` is
skipped by the daily bandwidth extraction without raising. -/
theorem c7_skip_unparseable_interval_witness :
    extract_daily_bandwidth_metrics "n"
        ⟨some [], some ([] ++ [("intervalStart", JVal.vstr "junk")] :: [wBwEntry]), []⟩
      = extract_daily_bandwidth_metrics "n" ⟨some [], some ([] ++ [wBwEntry]), []⟩ :=
  (c7_skip_unparseable_interval "n" (some []) (some []) [] [] [wBwEntry]
    [("intervalStart", JVal.vstr "junk")] (Or.inr (by rfl))).1

/-- C7 counterexample: an entry whose interval start is the integer 5 (truthy,
non-string) makes all three daily extractions raise `AttributeError` instead
of skipping the entry. -/
theorem c7_counterexample :
    extract_daily_bandwidth_metrics "n" ⟨some [], some [[("intervalStart", .vint 5)]], []⟩
      = .error .attributeError
    ∧ extract_daily_storage_metrics "n" ⟨some [[("intervalStart", .vint 5)]], some [], []⟩
      = .error .attributeError
    ∧ extract_daily_satellite_metrics "n" ⟨some [], some [[("intervalStart", .vint 5)]], []⟩
      = .error .attributeError
    ∧ extract_daily_satellite_metrics "n" ⟨some [[("intervalStart", .vint 5)]], some [], []⟩
      = .error .attributeError :=
  ⟨rfl, rfl, rfl, rfl⟩

/-- C5: when the bandwidth-daily list contains exactly one entry for a
recognized `(satellite, date)` key and the storage-daily list exactly one
entry for the same key, the extraction returns exactly one record for that
key, carrying the bandwidth-sourced fields of the former and the at-rest
bytes of the latter — one merged row, not two. -/
theorem c5_bandwidth_storage_merge
    (n sid : String) (d : PyDate) (b s : JObj) (rb : DailySatelliteMetric) (sb : Int)
    (au bdl sdl : List JObj) (l : List DailySatelliteMetric)
    (hbf : bdl.filter (stepHits (bwDailyStep n) (matchesKey sid d)) = [b])
    (hsf : sdl.filter (stHits sid d) = [s])
    (hb : bwDailyStep n b = .ok (some rb))
    (hs : stParse s = .ok (some (sid, d, sb)))
    (hex : extract_daily_satellite_metrics n ⟨some sdl, some bdl, au⟩ = .ok l) :
    l.filter (matchesKey sid d) = [setStorage sb rb] := by
  unfold extract_daily_satellite_metrics at hex
  split at hex
  · exact absurd hex (by simp)
  · next base hbase =>
    have hbasef : base.filter (matchesKey sid d) = [rb] := collect_filter hbase hbf hb
    exact stPass_filter_update hs hsf hbasef hex

/-- C5 witness: the concrete bandwidth entry and storage entry for us1 on
2025-09-14 merge into the single record `wMergedRec`. -/
theorem c5_bandwidth_storage_merge_witness :
    ([wMergedRec].filter (matchesKey us1Id ⟨2025, 9, 14⟩)) = [setStorage 777 wBwRec] :=
  c5_bandwidth_storage_merge "n" us1Id ⟨2025, 9, 14⟩ wBwEntry wStEntry wBwRec 777
    [] [wBwEntry] [wStEntry] [wMergedRec]
    (by rfl) (by rfl) (by rfl) (by rfl) (by rfl)

/-- C4 (amended): with one satellite entry and one audit entry targeting the
produced record's satellite, the byte/count fields equal `safe_int` of the
upstream value (0 on coercion failure) and the audit score equals
`safe_float` of the upstream value with default 0 — so a present but
non-coercible `auditScore` yields 0.0, while the 1.0 default applies only
when the field is absent.  (The original claim's "1.0 on coercion failure"
for score fields is refuted by the counterexample.) -/
theorem c4_coercion_defaults
    (n : String) (now : PyDateTime) (e a : JObj) (sdl bdl : Option (List JObj))
    (r : SatelliteStatus)
    (hok : extract_satellite_status n now ⟨some [e]⟩ ⟨sdl, bdl, [a]⟩ = .ok [r])
    (hsid : objGet a "satelliteID" .vnull = .vstr r.satellite_id) :
    r.current_month_egress = safe_int (objGet e "currentMonthEgress" (.vint 0)) 0
    ∧ r.current_month_ingress = safe_int (objGet e "currentMonthIngress" (.vint 0)) 0
    ∧ r.audit_score = safe_float (objGet a "auditScore" (.vfloat 1)) 0
    ∧ (pyInt? (objGet e "currentMonthEgress" (.vint 0)) = none → r.current_month_egress = 0)
    ∧ (pyFloat? (objGet a "auditScore" (.vfloat 1)) = none → r.audit_score = 0)
    ∧ (objGet a "auditScore" (.vfloat 1) = .vfloat 1 → r.audit_score = 1) := by
  unfold extract_satellite_status at hok
  split at hok
  · exact absurd hok (by simp)
  · next base hbase =>
    rw [if_neg (by simp)] at hok
    split at hok
    · exact absurd hok (by simp)
    · next m hbm =>
      injection hok with hok
      cases base with
      | nil => simp at hok
      | cons r0 rest =>
        cases rest with
        | cons r1 rest2 => simp at hok
        | nil =>
          simp only [List.map_cons, List.map_nil, List.cons.injEq, and_true] at hok
          have hbase2 : collectSteps (processSatelliteEntry n now) [e] = .ok [r0] := hbase
          have hpe : processSatelliteEntry n now e = .ok (some r0) := by
            simp only [collectSteps] at hbase2
            cases hp : processSatelliteEntry n now e with
            | error er => rw [hp] at hbase2; exact absurd hbase2 (by simp)
            | ok r? =>
              rw [hp] at hbase2
              cases r? with
              | none => simp at hbase2
              | some rr =>
                simp at hbase2
                subst hbase2
                rfl
          rcases processSatelliteEntry_ok_char hpe with ⟨k, hreg, hsat0, -, -, hegr, hing⟩
          have hknown : (lookupKnown r0.satellite_id).isSome = true := by
            rw [hsat0]
            exact lookupKnown_of_registry hreg
          have hrsat : r.satellite_id = r0.satellite_id := by
            rw [← hok, updateScores_satellite_id]
          rw [hrsat] at hsid
          have hfal : isFalsy (objGet a "satelliteID" .vnull) = false := by
            rw [hsid]
            simpa [isFalsy] using known_id_not_empty hknown
          have hm : m = [(JVal.vstr r0.satellite_id, a)] := by
            unfold buildAuditMap buildAuditMapAux at hbm
            rw [hfal] at hbm
            rw [hsid] at hbm
            simp only [Bool.false_eq_true, if_false, hashable, if_true, mapInsert] at hbm
            unfold buildAuditMapAux at hbm
            simp only [Except.ok.injEq] at hbm
            exact hbm.symm
          have hlook : mapLookup m (.vstr r0.satellite_id) = some a := by
            rw [hm]
            simp [mapLookup, pyKeyEq, numVal?]
          have hupd : r = updateScores m r0 := hok.symm
          have hus : updateScores m r0 =
              { r0 with
                audit_score := safe_float (objGet a "auditScore" (.vfloat 1)) 0
                suspension_score := safe_float (objGet a "suspensionScore" (.vfloat 1)) 0
                online_score := safe_float (objGet a "onlineScore" (.vfloat 1)) 0 } := by
            unfold updateScores
            rw [hlook]
          have hscore : r.audit_score = safe_float (objGet a "auditScore" (.vfloat 1)) 0 := by
            rw [hupd, hus]
          have hegr2 : r.current_month_egress
              = safe_int (objGet e "currentMonthEgress" (.vint 0)) 0 := by
            rw [hupd, updateScores_current_month_egress, hegr]
          have hing2 : r.current_month_ingress
              = safe_int (objGet e "currentMonthIngress" (.vint 0)) 0 := by
            rw [hupd, updateScores_current_month_ingress, hing]
          refine ⟨hegr2, hing2, hscore, ?_, ?_, ?_⟩
          · intro hpi
            rw [hegr2]
            simp [safe_int, hpi]
          · intro hpf
            rw [hscore]
            simp [safe_float, hpf]
          · intro hone
            rw [hscore, hone]
            simp [safe_float, pyFloat?]

/-- C4 witness: a non-numeric `currentMonthEgress` string coerces to 0 and a
non-numeric `auditScore` string coerces to 0.0, without an exception. -/
theorem c4_coercion_defaults_witness :
    wBadScoreRec.current_month_egress = 0 ∧ wBadScoreRec.audit_score = 0 :=
  have h := c4_coercion_defaults "n" wNow
    [("id", .vstr us1Id), ("currentMonthEgress", .vstr "abc")]
    [("satelliteID", .vstr us1Id), ("auditScore", .vstr "xyz")]
    (some []) (some []) wBadScoreRec (by rfl) (by rfl)
  ⟨h.2.2.2.1 (by rfl), h.2.2.2.2.1 (by rfl)⟩

/-- C4 counterexample: an audit entry whose `auditScore` is present but fails
to coerce yields a stored `audit_score` of 0.0, not the claimed default of
1.0 — `safe_float`'s fallback is 0.0, and the 1.0 default applies only to an
absent field. -/
theorem c4_counterexample :
    (extract_satellite_status "n" wNow ⟨some [[("id", .vstr us1Id)]]⟩
        ⟨some [], some [], [[("satelliteID", .vstr us1Id), ("auditScore", .vstr "abc")]]⟩).map
        (List.map SatelliteStatus.audit_score)
      = .ok [0] ∧ (0 : ℚ) ≠ 1 :=
  ⟨rfl, by norm_num⟩

end StorjMonitor
